import Mathlib

/-!
Verification of the benchmark-and-select engine of `auto_dd`
(`src/auto_dd.py` and `src/darthdd_kernel_fix.py`).

The two variants share the output parser (`parse_speed`) and the
benchmark coordinator (`benchmark`) verbatim; they differ in the
candidate block-size list (the auto variant appends the outlier
10485760) and in the per-trial device-preparation step of `run_dd`
(`flush_and_repartition` vs `clear_destination`).

Shallow-embedding conventions:
* Python floats are modelled as exact rationals (`ℚ`).  Every numeric
  value reaching a comparison here is parsed from a decimal literal or
  multiplied by 1024, and every concrete value used in a theorem is
  exactly representable in binary floating point, so the rational model
  agrees with IEEE semantics on all inputs appearing in the claims.
* Python exceptions become `Except`/`Option` results: `parse_speed`
  raising `ValueError`/`IndexError` is `Except.error`, and the
  `try/except` in `benchmark` is the total handling of that error value.
* External effects of `run_dd` (subprocesses, the filesystem, the
  clock) are an explicit environment value, and the sequence of
  external calls it makes is returned as an event trace.
-/

namespace AutoDD

/-! ### Character-level helpers for the regex
`re.search(r"(\d+) bytes .* copied, ([\d.]+) s, ([\d.]+ .B/s)", line)`
(`auto_dd.py` line 111, `darthdd_kernel_fix.py` line 147). -/

/-- `\d` of the pattern: an ASCII digit. -/
def isDigitChar (c : Char) : Bool := '0' ≤ c && c ≤ '9'

/-- `[\d.]` of the pattern: an ASCII digit or a dot. -/
def isDigitOrDot (c : Char) : Bool := isDigitChar c || c = '.'

/-- The whitespace set of Python `str.strip()` / `str.split()`
(restricted to the ASCII whitespace characters). -/
def isPySpace (c : Char) : Bool :=
  c = ' ' || c = '\t' || c = '\n' || c = '\r' || c = '\x0b' || c = '\x0c'

/-- Greedy maximal run of characters satisfying `p` (the span), with the
rest of the input. -/
def munchSpan (p : Char → Bool) : List Char → List Char × List Char
  | [] => ([], [])
  | c :: cs =>
    if p c then
      let r := munchSpan p cs
      (c :: r.1, r.2)
    else ([], c :: cs)

/-- Greedy `p+`: at least one character of the class, maximal run.
In the pattern every repetition of a class is followed by a literal
character outside the class, so the maximal run is the unique viable
match and no backtracking into the run is needed. -/
def munch1 (p : Char → Bool) (s : List Char) : Option (List Char × List Char) :=
  match munchSpan p s with
  | ([], _) => none
  | (a, b) => some (a, b)

/-- Consume an exact literal, returning the remaining input. -/
def dropLit : List Char → List Char → Option (List Char)
  | [], s => some s
  | _ :: _, [] => none
  | l :: ls, c :: cs => if c = l then dropLit ls cs else none

/-- Greedy `.*` followed by the continuation `k`: `.` matches any
character except a newline; the longest viable prefix is preferred,
falling back one character at a time — the preference order of a
backtracking regex engine. -/
def dotStarGreedy {α : Type} (k : List Char → Option α) : List Char → Option α
  | [] => k []
  | c :: cs =>
    if c = '\n' then k (c :: cs)
    else (dotStarGreedy k cs).orElse (fun _ => k (c :: cs))

/-- The three capture groups of the trailer pattern, as matched text. -/
structure DDMatch where
  bytesStr : List Char
  secondsStr : List Char
  speedStr : List Char
deriving DecidableEq

/-- Match ` .* copied, ([\d.]+) s, ([\d.]+ .B/s)` against the input that
follows `(\d+) bytes `, returning groups 2 and 3. -/
def matchTailAfterBytes (r : List Char) : Option (List Char × List Char) :=
  dotStarGreedy (fun rest => do
    let r1 ← dropLit (String.data " copied, ") rest
    let (g2, r2) ← munch1 isDigitOrDot r1
    let r3 ← dropLit (String.data " s, ") r2
    let (g3v, r4) ← munch1 isDigitOrDot r3
    match r4 with
    | ' ' :: u :: r5 =>
      if u = '\n' then none
      else do
        let _ ← dropLit (String.data "B/s") r5
        pure (g2, g3v ++ [' ', u] ++ String.data "B/s")
    | _ => none) r

/-- Attempt the full trailer pattern at the current start position. -/
def matchAt (s : List Char) : Option DDMatch := do
  let (g1, r) ← munch1 isDigitChar s
  let r1 ← dropLit (String.data " bytes ") r
  let (g2, g3) ← matchTailAfterBytes r1
  pure ⟨g1, g2, g3⟩

/-- `re.search`: try each start position from the left; the leftmost
matching start wins, with greedy preference at that start. -/
def ddSearch : List Char → Option DDMatch
  | [] => none
  | c :: cs => (matchAt (c :: cs)).orElse (fun _ => ddSearch cs)

/-- Python `str.strip()` on the last output line. -/
def pyStrip (s : List Char) : List Char :=
  ((s.dropWhile isPySpace).reverse.dropWhile isPySpace).reverse

/-- Value of a digit string, as Python `int` on `\d+` text. -/
def digitsToNat (ds : List Char) : Nat :=
  ds.foldl (fun n c => n * 10 + (c.toNat - '0'.toNat)) 0

/-- Split a string at every dot, keeping empty pieces. -/
def splitDots (s : List Char) : List (List Char) :=
  let fin := s.foldl
    (fun (st : List (List Char) × List Char) c =>
      if c = '.' then (st.1 ++ [st.2.reverse], [])
      else (st.1, c :: st.2)) ([], [])
  fin.1 ++ [fin.2.reverse]

/-- Python `float()` restricted to the `[\d.]+` texts the regex can
produce: at most one dot and at least one digit, else `ValueError`
(`none`).  The value is the exact decimal it denotes. -/
def pyFloat (s : List Char) : Option ℚ :=
  match splitDots s with
  | [ds] =>
    if ds ≠ [] ∧ ds.all isDigitChar then some (digitsToNat ds) else none
  | [ip, fp] =>
    if (ip ++ fp) ≠ [] ∧ (ip ++ fp).all isDigitChar then
      some ((digitsToNat ip : ℚ) + (digitsToNat fp : ℚ) / (10 : ℚ) ^ fp.length)
    else none
  | _ => none

/-- Python `str.split()` with no argument: split on runs of whitespace,
dropping empty pieces. -/
def pySplit (s : List Char) : List (List Char) :=
  let fin := s.foldl
    (fun (st : List (List Char) × List Char) c =>
      if isPySpace c then
        (if st.2 = [] then st else (st.1 ++ [st.2.reverse], []))
      else (st.1, c :: st.2)) ([], [])
  if fin.2 = [] then fin.1 else fin.1 ++ [fin.2.reverse]

/-! ### The output parser (`parse_speed`, identical in both variants) -/

/-- The exception classes `parse_speed` can raise, both of which the
caller in `benchmark` catches (`except (ValueError, IndexError)`). -/
inductive PyExn where
  | indexError
  | valueError
deriving DecidableEq

/-- Return value of `parse_speed`: `(time_seconds, speed, bytes_transferred)`. -/
structure ParsedSpeed where
  time_seconds : ℚ
  speed : List Char
  bytes_transferred : Nat
deriving DecidableEq

/-- `parse_speed` from `auto_dd.py` lines 104-117 (identical in
`darthdd_kernel_fix.py` lines 140-153): take the last line of the
captured output (`lines[-1]` raises `IndexError` on an empty file),
strip it, search for the trailer pattern, and on a match convert the
groups (`float` on group 2 can itself raise `ValueError` when the
matched `[\d.]+` text is not a valid decimal, e.g. `...`); on no match
raise `ValueError`.  Raised exceptions are the `Except.error` results. -/
def parse_speed (lines : List String) : Except PyExn ParsedSpeed :=
  match lines.getLast? with
  | none => Except.error PyExn.indexError
  | some last =>
    match ddSearch (pyStrip last.data) with
    | none => Except.error PyExn.valueError
    | some m =>
      match pyFloat m.secondsStr with
      | none => Except.error PyExn.valueError
      | some t => Except.ok ⟨t, m.speedStr, digitsToNat m.bytesStr⟩

/-! ### Result reporting helpers (`format_block_size`) -/

/-- Round a nonnegative rational to the nearest integer, half to even —
the rounding of Python `format(x, ".2f")` applied to the exact dyadic
values arising here (all inputs are integers divided by powers of two,
hence exact in binary floating point). -/
def roundHalfEven (q : ℚ) : Int :=
  let f : Int := ⌊q⌋
  let r : ℚ := q - (f : ℚ)
  if r < 1/2 then f
  else if 1/2 < r then f + 1
  else if f % 2 = 0 then f else f + 1

/-- Python `f"{q:.2f}"` for nonnegative `q`. -/
def format2f (q : ℚ) : String :=
  let n : Int := roundHalfEven (q * 100)
  let ip : Int := n / 100
  let fp : Nat := (n % 100).toNat
  toString ip ++ "." ++ (if fp < 10 then "0" else "") ++ toString fp

/-- `format_block_size` from `auto_dd.py` lines 49-57 (identical in
`darthdd_kernel_fix.py` lines 75-83). -/
def format_block_size (bs : Nat) : String :=
  if bs ≥ 1024 ^ 3 then format2f ((bs : ℚ) / 1024 ^ 3) ++ " GB"
  else if bs ≥ 1024 ^ 2 then format2f ((bs : ℚ) / 1024 ^ 2) ++ " MB"
  else if bs ≥ 1024 then format2f ((bs : ℚ) / 1024) ++ " KB"
  else toString bs ++ " bytes"

/-! ### Throughput normalization (inline in `benchmark`,
`auto_dd.py` lines 138-141 / `darthdd_kernel_fix.py` lines 174-177) -/

/-- Does the unit text start with `GB`? -/
def startsGB : List Char → Bool
  | 'G' :: 'B' :: _ => true
  | _ => false

/-- Python `"GB" in speed_unit`: substring containment. -/
def containsGB : List Char → Bool
  | [] => false
  | c :: cs => startsGB (c :: cs) || containsGB cs

/-- The normalization performed by `benchmark`:
`if "GB" in speed_unit: speed_value *= 1024` — multiply by 1024 exactly
when the unit text contains `GB`, otherwise leave the value unchanged
(in particular `kB/s` and `B/s` readings are not divided down). -/
def normalize_speed (speed_value : ℚ) (speed_unit : List Char) : ℚ :=
  if containsGB speed_unit then speed_value * 1024 else speed_value

/-! ### The benchmark coordinator (`benchmark`, identical logic in both
variants; the auto variant's candidate list has the 10485760 outlier) -/

/-- What `run_dd` hands back to the `benchmark` loop, per candidate:
either no duration (device preparation failed in the auto variant, the
copy timed out, or its process exited non-zero) or a completed copy
together with the lines of its captured output file. -/
inductive TrialResult where
  | noDuration
  | completed (lines : List String)
deriving DecidableEq

/-- A row of the `results` table: block-size label, data-transferred
cell (the exact MB and GB values the reporter formats), elapsed seconds,
and the raw throughput text.  A failed candidate's row has the three
result fields empty (`None` in the source). -/
structure Row where
  block_label : String
  data_transferred : Option (ℚ × ℚ)
  time_seconds : Option ℚ
  speed : Option (List Char)
deriving DecidableEq

/-- The blank row appended for a `Timeout`/`Failed`/`Unparseable`
candidate: `(format_block_size(bs), None, None, None)`. -/
def blankRow (bs : Nat) : Row := ⟨format_block_size bs, none, none, none⟩

/-- The success path of one `benchmark` iteration on a completed trial's
output (`auto_dd.py` lines 134-141): parse the output, compute the MB
and GB transferred, split the throughput text into value and unit
(`ValueError` when it does not split into exactly two words), convert
the value with `float` (`ValueError` on an invalid decimal), and
normalize GB/s to MB/s.  `none` is the caught `(ValueError, IndexError)`
branch.  Returns the row data and the normalized speed. -/
def successData (lines : List String) :
    Option ((ℚ × ℚ) × ℚ × List Char × ℚ) :=
  match parse_speed lines with
  | Except.error _ => none
  | Except.ok p =>
    let mb : ℚ := (p.bytes_transferred : ℚ) / (1024 * 1024)
    let gb : ℚ := (p.bytes_transferred : ℚ) / 1024 ^ 3
    match pySplit p.speed with
    | [sv, su] =>
      match pyFloat sv with
      | none => none
      | some v => some ((mb, gb), p.time_seconds, p.speed, normalize_speed v su)
    | _ => none

/-- The normalized speed a candidate's trial contributes, when its whole
success path goes through; `none` is exactly the `Timeout` / `Failed` /
`Unparseable` (non-`Success`) case. -/
def trialSpeed (t : TrialResult) : Option ℚ :=
  match t with
  | TrialResult.noDuration => none
  | TrialResult.completed lines =>
    (successData lines).map (fun x => x.2.2.2)

/-- The accumulator of the `benchmark` loop: the `results` list, the
running maximum `best_speed`, and its `best_block_size`. -/
structure BenchState where
  results : List Row
  best_speed : ℚ
  best_block_size : Nat
deriving DecidableEq

/-- One iteration of the `for bs in block_sizes` loop of `benchmark`
(`auto_dd.py` lines 129-152): a trial without a duration or whose
success path raises appends a blank row and changes nothing else; a
successful trial appends its full row and replaces the running maximum
exactly when its normalized speed is strictly greater. -/
def benchStep (st : BenchState) (bs : Nat) (t : TrialResult) : BenchState :=
  match t with
  | TrialResult.noDuration =>
    { st with results := st.results ++ [blankRow bs] }
  | TrialResult.completed lines =>
    match successData lines with
    | none => { st with results := st.results ++ [blankRow bs] }
    | some (d, ts, sp, nv) =>
      let st1 : BenchState :=
        { st with results :=
            st.results ++ [⟨format_block_size bs, some d, some ts, some sp⟩] }
      if nv > st1.best_speed then
        { st1 with best_speed := nv, best_block_size := bs }
      else st1

/-- The `benchmark` loop over a candidate list, given the outcome each
candidate's `run_dd` invocation produces. -/
def benchmarkAux (trial : Nat → TrialResult) : List Nat → BenchState → BenchState
  | [], st => st
  | bs :: rest, st => benchmarkAux trial rest (benchStep st bs (trial bs))

/-- The candidate list of `auto_dd.py` lines 121-124 (powers of two from
512 to 64 MB plus the 10485760 outlier). -/
def block_sizes : List Nat :=
  [512, 1024, 2048, 4096, 8192, 16384, 32768, 65536, 131072, 262144, 524288,
   1048576, 2097152, 4194304, 8388608, 16777216, 33554432, 67108864, 10485760]

/-- The candidate list of `darthdd_kernel_fix.py` lines 157-160 (no
outlier). -/
def block_sizes_kernel : List Nat :=
  [512, 1024, 2048, 4096, 8192, 16384, 32768, 65536, 131072, 262144, 524288,
   1048576, 2097152, 4194304, 8388608, 16777216, 33554432, 67108864]

/-- The initial accumulator: `results = []`, `best_speed = 0`,
`best_block_size = 32768` (`auto_dd.py` lines 125-127). -/
def benchInit : BenchState := ⟨[], 0, 32768⟩

/-- `benchmark` of `auto_dd.py` lines 119-159, as the final loop state
(the source returns `best_block_size` and prints `best_speed` and the
rows from it). -/
def benchmark (trial : Nat → TrialResult) : BenchState :=
  benchmarkAux trial block_sizes benchInit

/-- `benchmark` of `darthdd_kernel_fix.py` lines 155-195. -/
def benchmark_kernel (trial : Nat → TrialResult) : BenchState :=
  benchmarkAux trial block_sizes_kernel benchInit

/-- The row one candidate contributes, as a function of its trial
outcome (blank on any non-success). -/
def rowFor (bs : Nat) (t : TrialResult) : Row :=
  match t with
  | TrialResult.noDuration => blankRow bs
  | TrialResult.completed lines =>
    match successData lines with
    | none => blankRow bs
    | some (d, ts, sp, _) => ⟨format_block_size bs, some d, some ts, some sp⟩

/-! ### The trial runner (`run_dd`, both variants) -/

/-- `count = (benchmark_size * 1024 * 1024) // block_size`
(`auto_dd.py` line 72, `darthdd_kernel_fix.py` line 109): the number of
blocks handed to the copy command, floor division of the transfer cap in
bytes by the block size. -/
def dd_count (benchmark_size block_size : Nat) : Nat :=
  benchmark_size * 1024 * 1024 / block_size

/-- Success of the three external commands run by
`flush_and_repartition` (`auto_dd.py` lines 59-68): `sgdisk --zap-all`,
`sgdisk --new=1:0:0`, `partprobe`; a failing command short-circuits the
rest and the function returns `False`. -/
structure PrepEnv where
  zap_ok : Bool
  new_ok : Bool
  probe_ok : Bool
deriving DecidableEq

/-- `flush_and_repartition` returns `True` exactly when all three
commands succeed. -/
def flush_and_repartition (e : PrepEnv) : Bool :=
  e.zap_ok && e.new_ok && e.probe_ok

/-- Outcome of the copy subprocess inside `run_dd`: normal exit with its
elapsed wall time and captured output lines, `TimeoutExpired`, or
`CalledProcessError` with its message text. -/
inductive CopyResult where
  | ok (elapsed : ℚ) (lines : List String)
  | timeoutExpired (lines : List String)
  | calledProcessError (reason : String) (lines : List String)
deriving DecidableEq

/-- The external calls `run_dd` makes, in order. -/
inductive DDEvent where
  | prepDestination
  | flushCache
  | copyProcess
deriving DecidableEq

/-- Environment of one `auto_dd.py` `run_dd` invocation. -/
structure DDEnvAuto where
  prep : PrepEnv
  copy : CopyResult
deriving DecidableEq

/-- Environment of one `darthdd_kernel_fix.py` `run_dd` invocation:
`clear_ok` is whether the zero-fill `dd` subprocess inside
`clear_destination` succeeded — `clear_destination` catches its own
`CalledProcessError`, prints it, and returns regardless
(`darthdd_kernel_fix.py` lines 92-105). -/
structure DDEnvKernel where
  clear_ok : Bool
  copy : CopyResult
deriving DecidableEq

/-- `run_dd` from `auto_dd.py` lines 70-102, as its event trace plus its
return value `(duration, output_file_lines)`: it calls
`flush_and_repartition` once, and if that fails returns `(None, None)`
without running the copy; otherwise it runs the copy, returning
`(None, file)` on timeout or non-zero exit and `(elapsed, file)` on
success. -/
def run_dd (env : DDEnvAuto) :
    List DDEvent × (Option ℚ × Option (List String)) :=
  if flush_and_repartition env.prep then
    match env.copy with
    | CopyResult.ok t lines =>
      ([DDEvent.prepDestination, DDEvent.copyProcess], (some t, some lines))
    | CopyResult.timeoutExpired lines =>
      ([DDEvent.prepDestination, DDEvent.copyProcess], (none, some lines))
    | CopyResult.calledProcessError _ lines =>
      ([DDEvent.prepDestination, DDEvent.copyProcess], (none, some lines))
  else ([DDEvent.prepDestination], (none, none))

/-- `run_dd` from `darthdd_kernel_fix.py` lines 107-138: it calls
`flush_cache` and then `clear_destination` once each before the copy,
and the copy runs whether or not the zero-fill inside
`clear_destination` succeeded, because `clear_destination` swallows its
own failure. -/
def run_dd_kernel (env : DDEnvKernel) :
    List DDEvent × (Option ℚ × Option (List String)) :=
  match env.copy with
  | CopyResult.ok t lines =>
    ([DDEvent.flushCache, DDEvent.prepDestination, DDEvent.copyProcess],
     (some t, some lines))
  | CopyResult.timeoutExpired lines =>
    ([DDEvent.flushCache, DDEvent.prepDestination, DDEvent.copyProcess],
     (none, some lines))
  | CopyResult.calledProcessError _ lines =>
    ([DDEvent.flushCache, DDEvent.prepDestination, DDEvent.copyProcess],
     (none, some lines))

/-! ### Concrete inputs used to instantiate the theorems -/

/-- The spec's sample trailer line. -/
def sampleTrailer : String :=
  "1073741824 bytes (1.1 GB, 1.0 GiB) copied, 2.000000 s, 536 MB/s"

/-- A well-formed trailer reporting a throughput of zero. -/
def zeroTrailer : String :=
  "0 bytes (0 B, 0 B) copied, 1.0 s, 0.00 MB/s"

/-- An oracle where candidate 512 completes with a zero-speed trailer
and every other candidate produces no duration. -/
def zeroOracle : Nat → TrialResult :=
  fun bs =>
    if bs = 512 then TrialResult.completed [zeroTrailer]
    else TrialResult.noDuration


/-! ### Helper lemmas about one loop iteration -/

theorem benchStep_results (st : BenchState) (bs : Nat) (t : TrialResult) :
    (benchStep st bs t).results = st.results ++ [rowFor bs t] := by
  cases t with
  | noDuration => rfl
  | completed lines =>
    cases hs : successData lines with
    | none => simp only [benchStep, rowFor, hs]
    | some x =>
      obtain ⟨d, ts, sp, nv⟩ := x
      simp only [benchStep, rowFor, hs]
      split <;> rfl

theorem benchStep_of_none (st : BenchState) (bs : Nat) (t : TrialResult)
    (h : trialSpeed t = none) :
    benchStep st bs t = { st with results := st.results ++ [blankRow bs] } := by
  cases t with
  | noDuration => rfl
  | completed lines =>
    cases hs : successData lines with
    | none => simp only [benchStep, hs]
    | some x =>
      simp only [trialSpeed] at h
      rw [hs] at h
      simp at h

theorem benchStep_best_mono (st : BenchState) (bs : Nat) (t : TrialResult) :
    st.best_speed ≤ (benchStep st bs t).best_speed := by
  cases t with
  | noDuration => exact le_refl _
  | completed lines =>
    cases hs : successData lines with
    | none => simp only [benchStep, hs]; exact le_refl _
    | some x =>
      obtain ⟨d, ts, sp, nv⟩ := x
      simp only [benchStep, hs]
      split
      · next hgt => exact le_of_lt hgt
      · exact le_refl _

theorem benchStep_le (st : BenchState) (bs : Nat) (t : TrialResult) (v : ℚ)
    (h : trialSpeed t = some v) :
    v ≤ (benchStep st bs t).best_speed := by
  cases t with
  | noDuration => simp [trialSpeed] at h
  | completed lines =>
    cases hs : successData lines with
    | none => simp only [trialSpeed] at h; rw [hs] at h; simp at h
    | some x =>
      obtain ⟨d, ts, sp, nv⟩ := x
      simp only [trialSpeed] at h
      rw [hs] at h
      simp at h
      subst h
      simp only [benchStep, hs]
      split
      · exact le_refl _
      · next hng => exact le_of_not_lt hng

theorem benchStep_no_overwrite (st : BenchState) (bs : Nat) (t : TrialResult)
    (v : ℚ) (h : trialSpeed t = some v) (hle : v ≤ st.best_speed) :
    (benchStep st bs t).best_speed = st.best_speed ∧
    (benchStep st bs t).best_block_size = st.best_block_size := by
  cases t with
  | noDuration => simp [trialSpeed] at h
  | completed lines =>
    cases hs : successData lines with
    | none => simp only [trialSpeed] at h; rw [hs] at h; simp at h
    | some x =>
      obtain ⟨d, ts, sp, nv⟩ := x
      simp only [trialSpeed] at h
      rw [hs] at h
      simp at h
      subst h
      simp only [benchStep, hs]
      rw [if_neg (not_lt.mpr hle)]
      exact ⟨rfl, rfl⟩

/-! ### Helper lemmas about the whole loop -/

theorem benchmarkAux_results (trial : Nat → TrialResult) (cands : List Nat)
    (st : BenchState) :
    (benchmarkAux trial cands st).results
      = st.results ++ cands.map (fun bs => rowFor bs (trial bs)) := by
  induction cands generalizing st with
  | nil => simp [benchmarkAux]
  | cons bs rest ih =>
    rw [benchmarkAux, ih, benchStep_results]
    simp

theorem benchmarkAux_best_mono (trial : Nat → TrialResult) (cands : List Nat)
    (st : BenchState) :
    st.best_speed ≤ (benchmarkAux trial cands st).best_speed := by
  induction cands generalizing st with
  | nil => exact le_refl _
  | cons bs rest ih =>
    exact le_trans (benchStep_best_mono st bs (trial bs)) (ih _)

theorem benchmarkAux_le (trial : Nat → TrialResult) (cands : List Nat)
    (st : BenchState) (bs : Nat) (v : ℚ)
    (hbs : bs ∈ cands) (hv : trialSpeed (trial bs) = some v) :
    v ≤ (benchmarkAux trial cands st).best_speed := by
  induction cands generalizing st with
  | nil => cases hbs
  | cons c rest ih =>
    rw [benchmarkAux]
    rcases List.mem_cons.mp hbs with h | h
    · subst h
      exact le_trans (benchStep_le st bs (trial bs) v hv)
        (benchmarkAux_best_mono trial rest _)
    · exact ih _ h

theorem benchmarkAux_best_of_le (trial : Nat → TrialResult) (cands : List Nat)
    (st : BenchState)
    (h : ∀ bs ∈ cands, ∀ v, trialSpeed (trial bs) = some v → v ≤ st.best_speed) :
    (benchmarkAux trial cands st).best_speed = st.best_speed ∧
    (benchmarkAux trial cands st).best_block_size = st.best_block_size := by
  induction cands generalizing st with
  | nil => exact ⟨rfl, rfl⟩
  | cons c rest ih =>
    have hstep : (benchStep st c (trial c)).best_speed = st.best_speed ∧
        (benchStep st c (trial c)).best_block_size = st.best_block_size := by
      cases ht : trialSpeed (trial c) with
      | none =>
        rw [benchStep_of_none st c (trial c) ht]
        exact ⟨rfl, rfl⟩
      | some v =>
        exact benchStep_no_overwrite st c (trial c) v ht
          (h c (List.mem_cons_self c rest) v ht)
    have hrest := ih (benchStep st c (trial c))
      (fun bs hbs v hv => by
        rw [hstep.1]
        exact h bs (List.mem_cons_of_mem c hbs) v hv)
    rw [benchmarkAux]
    exact ⟨by rw [hrest.1, hstep.1], by rw [hrest.2, hstep.2]⟩

/-! ### Claim theorems -/

theorem parse_speed_err_of_no_match (lines : List String) (l : String)
    (hl : lines.getLast? = some l) (hs : ddSearch (pyStrip l.data) = none) :
    parse_speed lines = Except.error PyExn.valueError := by
  simp only [parse_speed, hl, hs]

/-- C1: for every output text whose last line does not match the trailer
pattern — including the completely empty output, where `lines[-1]`
raises `IndexError` — `parse_speed` produces an error value of one of
the two classes the coordinator catches, and the coordinator's loop body
turns it into a blank result row: the malformed input is data, and no
error escapes the parser boundary (the `except (ValueError, IndexError)`
handler). -/
theorem c1_unparseable_is_data (lines : List String) (st : BenchState) (bs : Nat)
    (h : lines = [] ∨
      ∃ l, lines.getLast? = some l ∧ ddSearch (pyStrip l.data) = none) :
    (∃ e, parse_speed lines = Except.error e) ∧
    benchStep st bs (TrialResult.completed lines)
      = { st with results := st.results ++ [blankRow bs] } := by
  have herr : ∃ e, parse_speed lines = Except.error e := by
    rcases h with h | ⟨l, hl, hs⟩
    · subst h; exact ⟨PyExn.indexError, rfl⟩
    · exact ⟨PyExn.valueError, parse_speed_err_of_no_match lines l hl hs⟩
  obtain ⟨e, he⟩ := herr
  refine ⟨⟨e, he⟩, ?_⟩
  apply benchStep_of_none
  simp [trialSpeed, successData, he]

/-- Witness for C1, at the output consisting of one empty line. -/
theorem c1_witness :
    (([""] : List String) = [] ∨
      ∃ l, ([""] : List String).getLast? = some l ∧
        ddSearch (pyStrip l.data) = none) ∧
    ((∃ e, parse_speed [""] = Except.error e) ∧
      benchStep benchInit 512 (TrialResult.completed [""])
        = { benchInit with results := benchInit.results ++ [blankRow 512] }) := by
  have h : ([""] : List String) = [] ∨
      ∃ l, ([""] : List String).getLast? = some l ∧
        ddSearch (pyStrip l.data) = none :=
    Or.inr ⟨"", rfl, by with_unfolding_all rfl⟩
  exact ⟨h, c1_unparseable_is_data [""] benchInit 512 h⟩

/-- C2: every `Success` outcome's normalized speed is bounded by the
returned `best_speed` (the Winner's recorded speed), and one loop
iteration whose normalized speed does not strictly exceed the running
maximum leaves both the maximum and its block size unchanged — ties keep
the earliest-tried candidate.  Stated over an arbitrary candidate list;
both variants' `benchmark` functions are instances of the loop. -/
theorem c2_winner_is_max (trial : Nat → TrialResult) (cands : List Nat)
    (bs : Nat) (v : ℚ) (st : BenchState) (bs2 : Nat) (t : TrialResult) (w : ℚ)
    (hbs : bs ∈ cands) (hv : trialSpeed (trial bs) = some v)
    (hw : trialSpeed t = some w) (hle : w ≤ st.best_speed) :
    v ≤ (benchmarkAux trial cands benchInit).best_speed ∧
    (benchStep st bs2 t).best_speed = st.best_speed ∧
    (benchStep st bs2 t).best_block_size = st.best_block_size ∧
    benchmark trial = benchmarkAux trial block_sizes benchInit ∧
    benchmark_kernel trial = benchmarkAux trial block_sizes_kernel benchInit :=
  ⟨benchmarkAux_le trial cands benchInit bs v hbs hv,
    (benchStep_no_overwrite st bs2 t w hw hle).1,
    (benchStep_no_overwrite st bs2 t w hw hle).2, rfl, rfl⟩

/-- Witness for C2: every candidate succeeds at 536 MB/s, and a state
whose running maximum is 600 is not overwritten by a 536 trial. -/
theorem c2_witness :
    (512 ∈ block_sizes) ∧
    trialSpeed (TrialResult.completed [sampleTrailer]) = some 536 ∧
    (536 : ℚ) ≤ (⟨[], 600, 32768⟩ : BenchState).best_speed ∧
    ((536 : ℚ) ≤ (benchmarkAux (fun _ => TrialResult.completed [sampleTrailer])
        block_sizes benchInit).best_speed ∧
      (benchStep ⟨[], 600, 32768⟩ 1024
          (TrialResult.completed [sampleTrailer])).best_speed
        = (⟨[], 600, 32768⟩ : BenchState).best_speed ∧
      (benchStep ⟨[], 600, 32768⟩ 1024
          (TrialResult.completed [sampleTrailer])).best_block_size
        = (⟨[], 600, 32768⟩ : BenchState).best_block_size ∧
      benchmark (fun _ => TrialResult.completed [sampleTrailer])
        = benchmarkAux (fun _ => TrialResult.completed [sampleTrailer])
            block_sizes benchInit ∧
      benchmark_kernel (fun _ => TrialResult.completed [sampleTrailer])
        = benchmarkAux (fun _ => TrialResult.completed [sampleTrailer])
            block_sizes_kernel benchInit) := by
  have hv : trialSpeed (TrialResult.completed [sampleTrailer]) = some 536 := by
    with_unfolding_all rfl
  have hle : (536 : ℚ) ≤ (⟨[], 600, 32768⟩ : BenchState).best_speed := by
    norm_num
  exact ⟨by decide, hv, hle,
    c2_winner_is_max (fun _ => TrialResult.completed [sampleTrailer])
      block_sizes 512 536 ⟨[], 600, 32768⟩ 1024
      (TrialResult.completed [sampleTrailer]) 536 (by decide) hv hv hle⟩

/-- C3 counterexample: the claim says a kB/s reading "divides down
accordingly", but the code's normalization leaves an 800 kB/s reading at
800, not 800/1024 — `kB/s` does not contain `GB`, and the only
conversion performed is the GB multiplication. -/
theorem c3_counterexample :
    normalize_speed 800 (String.data "kB/s") = 800 ∧
    normalize_speed 800 (String.data "kB/s") ≠ 800 / 1024 := by
  have hk : containsGB (String.data "kB/s") = false := by decide
  constructor
  · simp [normalize_speed, hk]
  · simp only [normalize_speed, hk, Bool.false_eq_true, if_false]
    norm_num

/-- C3 (amended): the normalization multiplies by 1024 exactly when the
reported unit contains `GB` and otherwise leaves the value unchanged —
so `2.00 GB/s` normalizes to 2048 and `512.00 MB/s` stays 512, but a
kB/s (or plain bytes/s) reading is not divided down; for a fixed unit
the normalization is monotone in the value. -/
theorem c3_normalize_gb_only (v w : ℚ) (u : List Char) (h : v ≤ w) :
    normalize_speed 2 (String.data "GB/s") = 2048 ∧
    normalize_speed 512 (String.data "MB/s") = 512 ∧
    normalize_speed v (String.data "kB/s") = v ∧
    normalize_speed v u ≤ normalize_speed w u := by
  have hk : containsGB (String.data "kB/s") = false := by decide
  refine ⟨by with_unfolding_all rfl, by with_unfolding_all rfl, ?_, ?_⟩
  · simp [normalize_speed, hk]
  · unfold normalize_speed
    split
    · exact mul_le_mul_of_nonneg_right h (by norm_num)
    · exact h

/-- Witness for C3 (amended) at values 1 ≤ 2 and unit `MB/s`. -/
theorem c3_witness :
    ((1 : ℚ) ≤ 2) ∧
    (normalize_speed 2 (String.data "GB/s") = 2048 ∧
     normalize_speed 512 (String.data "MB/s") = 512 ∧
     normalize_speed 1 (String.data "kB/s") = 1 ∧
     normalize_speed 1 (String.data "MB/s")
       ≤ normalize_speed 2 (String.data "MB/s")) :=
  ⟨by norm_num, c3_normalize_gb_only 1 2 (String.data "MB/s") (by norm_num)⟩

/-- C4: a candidate whose outcome is non-`Success` (no duration, or any
caught parse/convert error) contributes exactly the blank row, leaves
the running maximum and its block size untouched, and the loop continues
with the remaining candidates unconditionally. -/
theorem c4_failure_blank_row_continue (trial : Nat → TrialResult)
    (cands : List Nat) (st : BenchState) (bs : Nat)
    (h : trialSpeed (trial bs) = none) :
    benchStep st bs (trial bs)
      = { st with results := st.results ++ [blankRow bs] } ∧
    benchmarkAux trial (bs :: cands) st
      = benchmarkAux trial cands
          { st with results := st.results ++ [blankRow bs] } := by
  have hb := benchStep_of_none st bs (trial bs) h
  refine ⟨hb, ?_⟩
  rw [benchmarkAux, hb]

/-- Witness for C4 at a trial with no duration. -/
theorem c4_witness :
    trialSpeed TrialResult.noDuration = none ∧
    (benchStep benchInit 512 TrialResult.noDuration
        = { benchInit with results := benchInit.results ++ [blankRow 512] } ∧
      benchmarkAux (fun _ => TrialResult.noDuration) (512 :: [1024]) benchInit
        = benchmarkAux (fun _ => TrialResult.noDuration) [1024]
            { benchInit with
                results := benchInit.results ++ [blankRow 512] }) :=
  ⟨rfl, c4_failure_blank_row_continue (fun _ => TrialResult.noDuration)
    [1024] benchInit 512 rfl⟩

/-- C5: when every candidate's trial is non-`Success`, both variants
return the default block size 32768 with best speed 0 — the Winner is
the initial accumulator value, hence always defined. -/
theorem c5_default_winner (trial : Nat → TrialResult)
    (h : ∀ bs ∈ block_sizes, trialSpeed (trial bs) = none)
    (hk : ∀ bs ∈ block_sizes_kernel, trialSpeed (trial bs) = none) :
    (benchmark trial).best_block_size = 32768 ∧
    (benchmark trial).best_speed = 0 ∧
    (benchmark_kernel trial).best_block_size = 32768 ∧
    (benchmark_kernel trial).best_speed = 0 := by
  have h1 := benchmarkAux_best_of_le trial block_sizes benchInit
    (fun bs hbs v hv => by rw [h bs hbs] at hv; cases hv)
  have h2 := benchmarkAux_best_of_le trial block_sizes_kernel benchInit
    (fun bs hbs v hv => by rw [hk bs hbs] at hv; cases hv)
  exact ⟨h1.2, h1.1, h2.2, h2.1⟩

/-- Witness for C5: every trial lacks a duration. -/
theorem c5_witness :
    (∀ bs ∈ block_sizes,
      trialSpeed ((fun _ => TrialResult.noDuration) bs) = none) ∧
    (∀ bs ∈ block_sizes_kernel,
      trialSpeed ((fun _ => TrialResult.noDuration) bs) = none) ∧
    ((benchmark (fun _ => TrialResult.noDuration)).best_block_size = 32768 ∧
      (benchmark (fun _ => TrialResult.noDuration)).best_speed = 0 ∧
      (benchmark_kernel (fun _ => TrialResult.noDuration)).best_block_size
        = 32768 ∧
      (benchmark_kernel (fun _ => TrialResult.noDuration)).best_speed = 0) :=
  ⟨fun _ _ => rfl, fun _ _ => rfl,
    c5_default_winner (fun _ => TrialResult.noDuration)
      (fun _ _ => rfl) (fun _ _ => rfl)⟩

/-- C6 counterexample: the claim says the parser tolerates the absence
of a unit prefix (a plain `B/s` trailer), but the pattern ` .B/s`
requires exactly one character between the space and `B/s`, so a
well-formed trailer reporting `8 B/s` is rejected as unparseable. -/
theorem c6_counterexample :
    parse_speed ["16 bytes (16 B) copied, 2.0 s, 8 B/s"]
      = Except.error PyExn.valueError := by
  with_unfolding_all rfl

/-- C6 (amended): a trailer whose unit field is exactly one character
(any character, not only a letter) parses to `Success` with the bytes,
seconds and throughput text exactly as printed — the sample trailer
yields bytes=1073741824, time=2.0 and throughput splitting into
("536", "MB/s") — but the empty unit (plain `B/s`) is not tolerated and
is rejected as unparseable. -/
theorem c6_trailer_parses :
    parse_speed [sampleTrailer]
      = Except.ok ⟨2, String.data "536 MB/s", 1073741824⟩ ∧
    pySplit (String.data "536 MB/s")
      = [String.data "536", String.data "MB/s"] ∧
    parse_speed ["8 bytes (8 B) copied, 1.5 s, 5 kB/s"]
      = Except.ok ⟨3 / 2, String.data "5 kB/s", 8⟩ ∧
    parse_speed ["8 bytes (8 B) copied, 1.5 s, 5 7B/s"]
      = Except.ok ⟨3 / 2, String.data "5 7B/s", 8⟩ ∧
    parse_speed ["8 bytes (8 B) copied, 1.5 s, 5 B/s"]
      = Except.error PyExn.valueError := by
  refine ⟨?_, ?_, ?_, ?_, ?_⟩ <;> with_unfolding_all rfl

/-- C7: the loop produces exactly one result row per candidate, in the
candidate list's order, for any candidate list and any trial outcomes;
in particular for both variants' fixed lists. -/
theorem c7_one_row_per_candidate (trial : Nat → TrialResult)
    (cands : List Nat) :
    (benchmarkAux trial cands benchInit).results
      = cands.map (fun bs => rowFor bs (trial bs)) ∧
    (benchmark trial).results
      = block_sizes.map (fun bs => rowFor bs (trial bs)) ∧
    (benchmark_kernel trial).results
      = block_sizes_kernel.map (fun bs => rowFor bs (trial bs)) := by
  refine ⟨?_, ?_, ?_⟩ <;>
    simp [benchmark, benchmark_kernel, benchmarkAux_results, benchInit]

/-- C8 counterexample: in `darthdd_kernel_fix.py` a failing
device-preparation step does not make the trial `Failed` — the zero-fill
failure is swallowed inside `clear_destination`, the copy still runs,
and the trial completes normally. -/
theorem c8_counterexample :
    run_dd_kernel ⟨false, CopyResult.ok 1 [sampleTrailer]⟩
      = ([DDEvent.flushCache, DDEvent.prepDestination, DDEvent.copyProcess],
         (some 1, some [sampleTrailer])) := rfl

/-- C8 (amended): in both variants the device-preparation step runs
exactly once, before the copy.  In `auto_dd.py` a failing
`flush_and_repartition` aborts that trial with the `(None, None)` failed
outcome and the copy is not invoked; in `darthdd_kernel_fix.py` the
result is independent of whether the zero-fill inside
`clear_destination` succeeded, and the copy is invoked regardless.
Neither is a process-wide abort. -/
theorem c8_prep_once (env : DDEnvAuto) (envK : DDEnvKernel)
    (e2 : DDEnvAuto) (e3 : DDEnvKernel)
    (h : flush_and_repartition env.prep = false) (hK : envK.clear_ok = false) :
    run_dd env = ([DDEvent.prepDestination], (none, none)) ∧
    run_dd_kernel envK = run_dd_kernel ⟨true, envK.copy⟩ ∧
    ((run_dd e2).1 = [DDEvent.prepDestination] ∨
      (run_dd e2).1 = [DDEvent.prepDestination, DDEvent.copyProcess]) ∧
    (run_dd_kernel e3).1
      = [DDEvent.flushCache, DDEvent.prepDestination, DDEvent.copyProcess] := by
  refine ⟨?_, ?_, ?_, ?_⟩
  · simp [run_dd, h]
  · obtain ⟨ck, cp⟩ := envK
    cases cp <;> rfl
  · by_cases hp : flush_and_repartition e2.prep = true
    · right
      cases hc : e2.copy <;> simp [run_dd, hp, hc]
    · left
      simp [run_dd, hp]
  · obtain ⟨ck, cp⟩ := e3
    cases cp <;> rfl

/-- Witness for C8 at concrete environments with failing preparation. -/
theorem c8_witness :
    flush_and_repartition
      (⟨⟨false, true, true⟩, CopyResult.ok 1 []⟩ : DDEnvAuto).prep = false ∧
    (⟨false, CopyResult.timeoutExpired []⟩ : DDEnvKernel).clear_ok = false ∧
    (run_dd ⟨⟨false, true, true⟩, CopyResult.ok 1 []⟩
        = ([DDEvent.prepDestination], (none, none)) ∧
      run_dd_kernel ⟨false, CopyResult.timeoutExpired []⟩
        = run_dd_kernel ⟨true,
            (⟨false, CopyResult.timeoutExpired []⟩ : DDEnvKernel).copy⟩ ∧
      ((run_dd ⟨⟨true, true, true⟩, CopyResult.ok 1 []⟩).1
          = [DDEvent.prepDestination] ∨
        (run_dd ⟨⟨true, true, true⟩, CopyResult.ok 1 []⟩).1
          = [DDEvent.prepDestination, DDEvent.copyProcess]) ∧
      (run_dd_kernel ⟨true, CopyResult.ok 1 []⟩).1
        = [DDEvent.flushCache, DDEvent.prepDestination,
           DDEvent.copyProcess]) :=
  ⟨rfl, rfl,
    c8_prep_once ⟨⟨false, true, true⟩, CopyResult.ok 1 []⟩
      ⟨false, CopyResult.timeoutExpired []⟩
      ⟨⟨true, true, true⟩, CopyResult.ok 1 []⟩
      ⟨true, CopyResult.ok 1 []⟩ rfl rfl⟩

/-- C9: for a positive block size the block count is the floor division
of the byte cap by the block size, so the requested total
`count * block_size` never exceeds the cap, and a cap smaller than the
block size truncates the count to zero. -/
theorem c9_count_cap (benchmark_size block_size : Nat) (h : 0 < block_size) :
    dd_count benchmark_size block_size * block_size
      ≤ benchmark_size * 1024 * 1024 ∧
    (benchmark_size * 1024 * 1024 < block_size
      → dd_count benchmark_size block_size = 0) := by
  constructor
  · exact Nat.div_mul_le_self _ _
  · intro hlt
    exact Nat.div_eq_of_lt hlt

/-- Witness for C9 at the default 512 MB cap and 32768 block size. -/
theorem c9_witness :
    0 < 32768 ∧
    (dd_count 512 32768 * 32768 ≤ 512 * 1024 * 1024 ∧
      (512 * 1024 * 1024 < 32768 → dd_count 512 32768 = 0)) :=
  ⟨by decide, c9_count_cap 512 32768 (by decide)⟩

/-- C10: when some trial succeeds but every success's normalized speed
is 0, the winner is still the default 32768 with best speed 0, in both
variants — only a strictly greater speed replaces the running maximum,
so a `Success` outcome need not make the Winner a successful block
size. -/
theorem c10_zero_speed_default (trial : Nat → TrialResult)
    (hex : ∃ bs ∈ block_sizes, trialSpeed (trial bs) = some 0)
    (hall : ∀ bs ∈ block_sizes,
      trialSpeed (trial bs) = none ∨ trialSpeed (trial bs) = some 0)
    (hexk : ∃ bs ∈ block_sizes_kernel, trialSpeed (trial bs) = some 0)
    (hallk : ∀ bs ∈ block_sizes_kernel,
      trialSpeed (trial bs) = none ∨ trialSpeed (trial bs) = some 0) :
    (benchmark trial).best_block_size = 32768 ∧
    (benchmark trial).best_speed = 0 ∧
    (benchmark_kernel trial).best_block_size = 32768 ∧
    (benchmark_kernel trial).best_speed = 0 := by
  have hb : ∀ cands : List Nat,
      (∀ bs ∈ cands,
        trialSpeed (trial bs) = none ∨ trialSpeed (trial bs) = some 0) →
      (benchmarkAux trial cands benchInit).best_speed
          = benchInit.best_speed ∧
        (benchmarkAux trial cands benchInit).best_block_size
          = benchInit.best_block_size := by
    intro cands hc
    exact benchmarkAux_best_of_le trial cands benchInit
      (fun bs hbs v hv => by
        rcases hc bs hbs with h | h
        · rw [h] at hv; cases hv
        · rw [h] at hv
          injection hv with h2
          subst h2
          exact le_refl 0)
  have h1 := hb block_sizes hall
  have h2 := hb block_sizes_kernel hallk
  exact ⟨h1.2, h1.1, h2.2, h2.1⟩

/-- Witness for C10: candidate 512 (present in both candidate lists)
completes with a `0.00 MB/s` trailer and every other candidate fails. -/
theorem c10_witness :
    (∃ bs ∈ block_sizes, trialSpeed (zeroOracle bs) = some 0) ∧
    (∀ bs ∈ block_sizes,
      trialSpeed (zeroOracle bs) = none ∨
        trialSpeed (zeroOracle bs) = some 0) ∧
    (∃ bs ∈ block_sizes_kernel, trialSpeed (zeroOracle bs) = some 0) ∧
    (∀ bs ∈ block_sizes_kernel,
      trialSpeed (zeroOracle bs) = none ∨
        trialSpeed (zeroOracle bs) = some 0) ∧
    ((benchmark zeroOracle).best_block_size = 32768 ∧
      (benchmark zeroOracle).best_speed = 0 ∧
      (benchmark_kernel zeroOracle).best_block_size = 32768 ∧
      (benchmark_kernel zeroOracle).best_speed = 0) := by
  have hz : trialSpeed (zeroOracle 512) = some 0 := by with_unfolding_all rfl
  have hall : ∀ cands : List Nat, ∀ bs ∈ cands,
      trialSpeed (zeroOracle bs) = none ∨
        trialSpeed (zeroOracle bs) = some 0 := by
    intro cands bs hbs
    by_cases h : bs = 512
    · subst h
      exact Or.inr hz
    · left
      simp only [zeroOracle, if_neg h]
      rfl
  exact ⟨⟨512, by decide, hz⟩, hall block_sizes,
    ⟨512, by decide, hz⟩, hall block_sizes_kernel,
    c10_zero_speed_default zeroOracle ⟨512, by decide, hz⟩
      (hall block_sizes) ⟨512, by decide, hz⟩ (hall block_sizes_kernel)⟩

end AutoDD
